import Mathlib

/-!
Shallow embedding of the executor core of a CI build runner
(`src/executor.go`): the backend selector `GetExecutor` and the shared
lifecycle controller `BaseExecutor` with its `Prepare`, `Wait` and `Cleanup`
operations.

Conventions of the embedding:
- Go channels are modelled by their allocation state: `Option Nat` records
  the channel's buffer capacity once `make` has run, `none` before.
- External collaborators (`Build.Generate`, `Build.CreateBuildLog`) are
  fallible calls whose outcome is passed to `Prepare` as an explicit
  `Except` argument; the controller's reaction to each outcome is what the
  source file defines and what we verify.
- `Wait` blocks on a three-way `select`; the branch that resolves it is
  passed as an explicit `WaitEvent`.  The observable effects of `Wait`
  (launching the trace watcher, invoking the abort callback, the
  watcher-shutdown rendezvous, the final report) are returned as an ordered
  trace of `WaitAction`s, mirroring the textual order of the source.
- `Cleanup` likewise returns the ordered trace of the release actions it
  performs; its Go signature has no return value, so no error slot exists.
-/

/-- Modelled from the spec: `BuildState` and its constants `Success` and
`Failed` are declared outside the provided source file; the spec describes a
closed enumeration of the two terminal outcomes of one execution episode. -/
inductive BuildState where
  | Success
  | Failed
  deriving DecidableEq, Repr

/-- Modelled from the spec: `RunnerConfig` is declared outside the provided
source file.  The source reads its `Executor` (backend identifier) and
`BuildsDir` (working-directory override) fields; `Name`, `URL` and `Token`
stand for the remaining runner-identity fields used only for diagnostics. -/
structure RunnerConfig where
  Name : String
  URL : String
  Token : String
  Executor : String
  BuildsDir : String
  deriving DecidableEq, Repr

/-- Modelled from the spec: `Build` is declared outside the provided source
file.  The source reads its `Id` (diagnostic tag) and `Timeout` (configured
wall-clock budget in seconds, may be zero or negative) fields. -/
structure Build where
  Id : Nat
  Timeout : Int
  deriving DecidableEq, Repr

/-- Modelled from the spec: `DEFAULT_TIMEOUT` is a package-level constant
declared outside the provided source file; the spec fixes it only as the
positive default wall-clock budget in seconds substituted when the build's
configured timeout is not positive.  We take the value 7200. -/
def DEFAULT_TIMEOUT : Int := 7200

/-- State of the shared lifecycle controller `BaseExecutor`.  Fields follow
the Go struct: channels are `Option` capacities (`none` = not yet made),
`script_data` holds the generated script bytes, `build_log` an opaque handle
for the opened log resource, and `buildAbortFunc` records whether a backend
abort hook was supplied. -/
structure BaseExecutor where
  DefaultBuildsDir : String
  config : Option RunnerConfig
  build : Option Build
  builds_dir : String
  buildAbort : Option Nat
  buildFinish : Option Nat
  buildLogFinish : Option Nat
  script_data : Option (List UInt8)
  build_log : Option Nat
  buildAbortFunc : Bool
  deriving DecidableEq, Repr

/-- A freshly constructed controller, as built by the selector: only the
backend default working directory is set, every other field is the Go zero
value. -/
def newBaseExecutor (dir : String) : BaseExecutor :=
  ⟨dir, none, none, "", none, none, none, none, none, false⟩

/-- `ShellExecutor` embeds the base controller (source lines 20-24). -/
structure ShellExecutor where
  base : BaseExecutor
  deriving DecidableEq, Repr

/-- `DockerExecutor` embeds the base controller (source lines 26-33). -/
structure DockerExecutor where
  base : BaseExecutor
  deriving DecidableEq, Repr

/-- `DockerCommandExecutor` embeds `DockerExecutor`. -/
structure DockerCommandExecutor where
  docker : DockerExecutor
  deriving DecidableEq, Repr

/-- `DockerSshExecutor` embeds `DockerExecutor`. -/
structure DockerSshExecutor where
  docker : DockerExecutor
  deriving DecidableEq, Repr

/-- The closed set of concrete executor variants the selector can return. -/
inductive ExecutorImpl where
  | shell (e : ShellExecutor)
  | dockerCommand (e : DockerCommandExecutor)
  | dockerSsh (e : DockerSshExecutor)
  deriving DecidableEq, Repr

/-- Embedding of `GetExecutor` (source lines 18-45): a case-sensitive switch
on `config.Executor`; `none` models the Go `nil` return for unsupported
identifiers. -/
def GetExecutor (config : RunnerConfig) : Option ExecutorImpl :=
  match config.Executor with
  | "shell" => some (ExecutorImpl.shell ⟨newBaseExecutor "tmp/builds"⟩)
  | "" => some (ExecutorImpl.shell ⟨newBaseExecutor "tmp/builds"⟩)
  | "docker" => some (ExecutorImpl.dockerCommand ⟨⟨newBaseExecutor "/builds"⟩⟩)
  | "docker-ssh" => some (ExecutorImpl.dockerSsh ⟨⟨newBaseExecutor "builds"⟩⟩)
  | _ => none

/-- Embedding of `BaseExecutor.Prepare` (source lines 72-97).  The outcomes
of the two external collaborator calls — `build.Generate(builds_dir)` and
`build.CreateBuildLog()` — are passed in as `Except` values.  Returns the
updated controller state paired with the Go return value (`some err` when an
error is propagated, `none` for the nil return). -/
def BaseExecutor.Prepare (e : BaseExecutor) (config : RunnerConfig) (build : Build)
    (genResult : Except String (List UInt8)) (logResult : Except String Nat) :
    BaseExecutor × Option String :=
  -- e.config = config; e.build = build; the three channels are made with
  -- capacities 1 (abort), 1 (finish) and 0 (log-finish rendezvous); then the
  -- working directory is resolved (config override else backend default).
  let dir := if config.BuildsDir.length ≠ 0 then config.BuildsDir else e.DefaultBuildsDir
  let e1 : BaseExecutor :=
    ⟨e.DefaultBuildsDir, some config, some build, dir, some 1, some 1, some 0,
      e.script_data, e.build_log, e.buildAbortFunc⟩
  match genResult with
  | Except.error err => (e1, some err)
  | Except.ok script =>
    let e2 : BaseExecutor :=
      ⟨e1.DefaultBuildsDir, e1.config, e1.build, e1.builds_dir, e1.buildAbort,
        e1.buildFinish, e1.buildLogFinish, some script, e1.build_log, e1.buildAbortFunc⟩
    match logResult with
    | Except.error err => (e2, some err)
    | Except.ok handle =>
      (⟨e2.DefaultBuildsDir, e2.config, e2.build, e2.builds_dir, e2.buildAbort,
        e2.buildFinish, e2.buildLogFinish, e2.script_data, some handle,
        e2.buildAbortFunc⟩, none)

/-- The release actions `Cleanup` can perform. -/
inductive CleanupAction where
  | deleteBuildLog
  | closeBuildLog
  deriving DecidableEq, Repr

/-- Embedding of `BaseExecutor.Cleanup` (source lines 99-107): ask the build
handle to delete the log artifact only when a build handle is present, and
close the log resource only when one was opened.  The Go method returns
nothing, so the embedding returns only the ordered trace of actions. -/
def BaseExecutor.Cleanup (e : BaseExecutor) : List CleanupAction :=
  (if e.build.isSome then [CleanupAction.deleteBuildLog] else []) ++
    (if e.build_log.isSome then [CleanupAction.closeBuildLog] else [])

/-- The three signals of `Wait`'s `select`; `finish err` carries the
error-or-nil value delivered on the completion channel. -/
inductive WaitEvent where
  | abort
  | timeout
  | finish (err : Option String)
  deriving DecidableEq, Repr

/-- Observable effects of `Wait`, in the order the source performs them. -/
inductive WaitAction where
  | watchTrace
  | abortCallback
  | logFinishRendezvous
  | finishBuild (state : BuildState) (message : String)
  deriving DecidableEq, Repr

/-- The timeout-branch message, `fmt.Sprintf` of source line 134. -/
def timeoutNotice (t : Int) : String :=
  "\nCI Timeout. Execution took longer then " ++ toString t ++ " seconds"

/-- The completion-error message, `fmt.Sprintf` of source line 145. -/
def buildFailedNotice (e : String) : String :=
  "\nBuild failed with " ++ e

/-- The effective timeout of `Wait` (source lines 115-118): the build's
configured `Timeout` when positive, else `DEFAULT_TIMEOUT`. -/
def effectiveTimeout (b : Build) : Int :=
  if b.Timeout ≤ 0 then DEFAULT_TIMEOUT else b.Timeout

/-- Embedding of the `select` statement of `Wait` (source lines 121-149):
given whether an abort callback is present, the effective timeout, and the
branch that fires, yields the resolved state, the message, and the actions
performed inside the branch. -/
def selectBranch (abortFuncPresent : Bool) (buildTimeout : Int) (ev : WaitEvent) :
    BuildState × String × List WaitAction :=
  match ev with
  | WaitEvent.abort =>
    (BuildState.Failed, "",
      if abortFuncPresent then [WaitAction.abortCallback] else [])
  | WaitEvent.timeout =>
    (BuildState.Failed, timeoutNotice buildTimeout,
      if abortFuncPresent then [WaitAction.abortCallback] else [])
  | WaitEvent.finish err =>
    match err with
    | some msg => (BuildState.Failed, buildFailedNotice msg, [])
    | none => (BuildState.Success, "", [])

/-- Embedding of `BaseExecutor.Wait` (source lines 109-159).  `none` models
the nil-dereference when no build handle is present (the caller must have
run `Prepare`).  Otherwise the result is the ordered trace of `Wait`'s
observable effects — launch the watcher, run the resolving branch, the
watcher-shutdown rendezvous (`e.buildLogFinish <- true`, which completes
only when the watcher receives it), then the single final report — paired
with `Wait`'s own Go return value, which is always nil. -/
def BaseExecutor.Wait (e : BaseExecutor) (ev : WaitEvent) :
    Option (List WaitAction × Option String) :=
  match e.build with
  | none => none
  | some b =>
    let out := selectBranch e.buildAbortFunc (effectiveTimeout b) ev
    some (WaitAction.watchTrace ::
      (out.2.2 ++ [WaitAction.logFinishRendezvous, WaitAction.finishBuild out.1 out.2.1]),
      none)

/-- Discriminator for the final-report action in a `Wait` trace. -/
def WaitAction.isReport : WaitAction → Bool
  | WaitAction.finishBuild _ _ => true
  | _ => false

/-- Discriminator for the abort-callback action in a `Wait` trace. -/
def WaitAction.isAbortCallback : WaitAction → Bool
  | WaitAction.abortCallback => true
  | _ => false

/-- Holds when `tr` contains exactly one final-report action, and that report
carries `st` and `msg`. -/
def reportsExactly (tr : List WaitAction) (st : BuildState) (msg : String) : Prop :=
  List.countP WaitAction.isReport tr = 1 ∧ WaitAction.finishBuild st msg ∈ tr

/-- Build with a positive configured timeout, used to instantiate theorems. -/
def demoBuild : Build := ⟨1, 10⟩

/-- Build with a negative configured timeout. -/
def demoNegBuild : Build := ⟨2, -5⟩

/-- A prepared controller for `demoBuild` with an abort callback supplied. -/
def demoExec : BaseExecutor :=
  ⟨"tmp/builds", none, some demoBuild, "tmp/builds", some 1, some 1, some 0,
    none, none, true⟩

/-- A prepared controller for `demoBuild` without an abort callback. -/
def demoPlainExec : BaseExecutor :=
  ⟨"tmp/builds", none, some demoBuild, "tmp/builds", some 1, some 1, some 0,
    none, none, false⟩

/-- A prepared controller for `demoNegBuild` with an abort callback supplied. -/
def demoNegExec : BaseExecutor :=
  ⟨"tmp/builds", none, some demoNegBuild, "tmp/builds", some 1, some 1, some 0,
    none, none, true⟩

/-- Evaluation of `Wait` once a build handle is present: the trace is the
watcher launch, the branch actions, the rendezvous, and the single report. -/
theorem wait_eq (e : BaseExecutor) (b : Build) (hb : e.build = some b) (ev : WaitEvent) :
    e.Wait ev = some (WaitAction.watchTrace ::
      ((selectBranch e.buildAbortFunc (effectiveTimeout b) ev).2.2 ++
        [WaitAction.logFinishRendezvous,
          WaitAction.finishBuild (selectBranch e.buildAbortFunc (effectiveTimeout b) ev).1
            (selectBranch e.buildAbortFunc (effectiveTimeout b) ev).2.1]), none) := by
  unfold BaseExecutor.Wait
  rw [hb]

/-- The actions performed inside a `select` branch are at most one abort
callback, never a report or a rendezvous. -/
theorem selectBranch_actions (af : Bool) (t : Int) (ev : WaitEvent) :
    (selectBranch af t ev).2.2 = [] ∨
      (selectBranch af t ev).2.2 = [WaitAction.abortCallback] := by
  cases ev with
  | abort => cases af <;> simp [selectBranch]
  | timeout => cases af <;> simp [selectBranch]
  | finish err => cases err <;> cases af <;> simp [selectBranch]

/-- C5: the effective timeout used by `Wait` equals the build's configured
`Timeout` when that value is positive, and equals `DEFAULT_TIMEOUT` when the
configured value is zero or negative. -/
theorem effectiveTimeout_spec (b : Build) :
    (0 < b.Timeout → effectiveTimeout b = b.Timeout) ∧
    (b.Timeout ≤ 0 → effectiveTimeout b = DEFAULT_TIMEOUT) := by
  refine ⟨fun h => ?_, fun h => ?_⟩ <;> unfold effectiveTimeout
  · rw [if_neg (by omega)]
  · rw [if_pos h]

/-- Witness for C5 at configured timeouts 10 (positive) and -5 (negative). -/
theorem effectiveTimeout_spec_witness :
    effectiveTimeout demoBuild = 10 ∧ effectiveTimeout demoNegBuild = DEFAULT_TIMEOUT :=
  ⟨(effectiveTimeout_spec demoBuild).1 (by decide),
    (effectiveTimeout_spec demoNegBuild).2 (by decide)⟩

/-- C6: the backend selector maps identifiers case-sensitively: `""` and
`"shell"` yield a shell executor with default directory `tmp/builds`,
`"docker"` a container executor with `/builds`, `"docker-ssh"` a
container-over-remote executor with `builds`, and any other identifier the
unsupported sentinel `none`, with no error raised. -/
theorem getExecutor_spec (c : RunnerConfig) :
    ((c.Executor = "" ∨ c.Executor = "shell") →
      GetExecutor c = some (ExecutorImpl.shell ⟨newBaseExecutor "tmp/builds"⟩)) ∧
    (c.Executor = "docker" →
      GetExecutor c = some (ExecutorImpl.dockerCommand ⟨⟨newBaseExecutor "/builds"⟩⟩)) ∧
    (c.Executor = "docker-ssh" →
      GetExecutor c = some (ExecutorImpl.dockerSsh ⟨⟨newBaseExecutor "builds"⟩⟩)) ∧
    (c.Executor ≠ "" → c.Executor ≠ "shell" → c.Executor ≠ "docker" →
      c.Executor ≠ "docker-ssh" → GetExecutor c = none) := by
  refine ⟨?_, ?_, ?_, ?_⟩
  · rintro (h | h) <;> (unfold GetExecutor; rw [h]) <;> decide
  · intro h; unfold GetExecutor; rw [h]; decide
  · intro h; unfold GetExecutor; rw [h]; decide
  · intro h1 h2 h3 h4
    unfold GetExecutor
    split <;> simp_all

/-- Witness for C6 at the five sample identifiers, including the
case-sensitive rejection of `"Shell"`. -/
theorem getExecutor_spec_witness :
    GetExecutor ⟨"n", "u", "t", "", ""⟩ =
      some (ExecutorImpl.shell ⟨newBaseExecutor "tmp/builds"⟩) ∧
    GetExecutor ⟨"n", "u", "t", "shell", ""⟩ =
      some (ExecutorImpl.shell ⟨newBaseExecutor "tmp/builds"⟩) ∧
    GetExecutor ⟨"n", "u", "t", "docker", ""⟩ =
      some (ExecutorImpl.dockerCommand ⟨⟨newBaseExecutor "/builds"⟩⟩) ∧
    GetExecutor ⟨"n", "u", "t", "docker-ssh", ""⟩ =
      some (ExecutorImpl.dockerSsh ⟨⟨newBaseExecutor "builds"⟩⟩) ∧
    GetExecutor ⟨"n", "u", "t", "Shell", ""⟩ = none :=
  ⟨(getExecutor_spec ⟨"n", "u", "t", "", ""⟩).1 (Or.inl rfl),
    (getExecutor_spec ⟨"n", "u", "t", "shell", ""⟩).1 (Or.inr rfl),
    (getExecutor_spec ⟨"n", "u", "t", "docker", ""⟩).2.1 rfl,
    (getExecutor_spec ⟨"n", "u", "t", "docker-ssh", ""⟩).2.2.1 rfl,
    (getExecutor_spec ⟨"n", "u", "t", "Shell", ""⟩).2.2.2
      (by decide) (by decide) (by decide) (by decide)⟩

/-- C10: the backend selector's result depends only on the `Executor` field of
the configuration: two configurations with equal `Executor` fields yield equal
selector results. -/
theorem getExecutor_depends_only_on_executor (c1 c2 : RunnerConfig)
    (h : c1.Executor = c2.Executor) : GetExecutor c1 = GetExecutor c2 := by
  unfold GetExecutor
  rw [h]

/-- Witness for C10: two configurations equal only in `Executor`. -/
theorem getExecutor_depends_only_on_executor_witness :
    GetExecutor ⟨"a", "url1", "tok1", "docker", "dir1"⟩ =
      GetExecutor ⟨"b", "url2", "tok2", "docker", ""⟩ :=
  getExecutor_depends_only_on_executor _ _ rfl

/-- C8: `Cleanup` is total on every controller state and never fails the
caller (its embedding has no error outcome): log deletion is requested exactly
when a build handle is present, close is invoked exactly when the log resource
was opened, and close is never performed twice. -/
theorem cleanup_safe (e : BaseExecutor) :
    (CleanupAction.deleteBuildLog ∈ e.Cleanup ↔ e.build.isSome = true) ∧
    (CleanupAction.closeBuildLog ∈ e.Cleanup ↔ e.build_log.isSome = true) ∧
    List.countP (fun a => a == CleanupAction.closeBuildLog) e.Cleanup ≤ 1 := by
  cases hb : e.build <;> cases hl : e.build_log <;>
    simp [BaseExecutor.Cleanup, hb, hl]

/-- C7: when script generation fails, `Prepare` propagates the error and
leaves the controller partially initialized — the three signaling primitives
exist (capacities 1, 1 and 0), but no script data is stored and no log
resource is created; likewise, when log creation fails, that error is
propagated and no log handle is stored. -/
theorem prepare_failure_spec (e : BaseExecutor) (config : RunnerConfig) (build : Build)
    (hs : e.script_data = none) (hl : e.build_log = none) :
    (∀ err logResult,
      (e.Prepare config build (Except.error err) logResult).2 = some err ∧
      (e.Prepare config build (Except.error err) logResult).1.buildAbort = some 1 ∧
      (e.Prepare config build (Except.error err) logResult).1.buildFinish = some 1 ∧
      (e.Prepare config build (Except.error err) logResult).1.buildLogFinish = some 0 ∧
      (e.Prepare config build (Except.error err) logResult).1.script_data = none ∧
      (e.Prepare config build (Except.error err) logResult).1.build_log = none) ∧
    (∀ script err,
      (e.Prepare config build (Except.ok script) (Except.error err)).2 = some err ∧
      (e.Prepare config build (Except.ok script) (Except.error err)).1.buildAbort = some 1 ∧
      (e.Prepare config build (Except.ok script) (Except.error err)).1.buildFinish = some 1 ∧
      (e.Prepare config build (Except.ok script) (Except.error err)).1.buildLogFinish = some 0 ∧
      (e.Prepare config build (Except.ok script) (Except.error err)).1.build_log = none) := by
  refine ⟨fun err logResult => ?_, fun script err => ?_⟩ <;>
    simp [BaseExecutor.Prepare, hs, hl]

/-- Witness for C7: a fresh shell controller with a failed script generation,
then with a failed log creation. -/
theorem prepare_failure_spec_witness :
    ((newBaseExecutor "tmp/builds").Prepare ⟨"n", "u", "t", "shell", ""⟩ demoBuild
      (Except.error "no script") (Except.ok 3)).2 = some "no script" ∧
    ((newBaseExecutor "tmp/builds").Prepare ⟨"n", "u", "t", "shell", ""⟩ demoBuild
      (Except.error "no script") (Except.ok 3)).1.build_log = none ∧
    ((newBaseExecutor "tmp/builds").Prepare ⟨"n", "u", "t", "shell", ""⟩ demoBuild
      (Except.ok [1, 2]) (Except.error "no log")).2 = some "no log" ∧
    ((newBaseExecutor "tmp/builds").Prepare ⟨"n", "u", "t", "shell", ""⟩ demoBuild
      (Except.ok [1, 2]) (Except.error "no log")).1.build_log = none := by
  have h := prepare_failure_spec (newBaseExecutor "tmp/builds")
    ⟨"n", "u", "t", "shell", ""⟩ demoBuild rfl rfl
  exact ⟨(h.1 "no script" (Except.ok 3)).1, (h.1 "no script" (Except.ok 3)).2.2.2.2.2,
    (h.2 [1, 2] "no log").1, (h.2 [1, 2] "no log").2.2.2.2⟩

/-- The decimal rendering of a nonpositive integer differs from that of the
positive constant `DEFAULT_TIMEOUT`. -/
theorem toString_nonpos_ne_default (t : Int) (ht : t ≤ 0) :
    toString t ≠ toString DEFAULT_TIMEOUT := by
  cases t with
  | ofNat n =>
    have hn : n = 0 := by
      simp only [Int.ofNat_eq_natCast] at ht
      omega
    subst hn
    decide
  | negSucc m =>
    intro h
    have h7 : toString DEFAULT_TIMEOUT = "7200" := by decide
    rw [h7] at h
    have hneg : toString (Int.negSucc m) = "-" ++ toString (m + 1) := rfl
    rw [hneg] at h
    have hdata := congrArg String.data h
    rw [String.data_append] at hdata
    have h4 : ("7200" : String).data = ['7', '2', '0', '0'] := rfl
    have hm : ("-" : String).data = ['-'] := rfl
    rw [h4, hm] at hdata
    injection hdata with h1 h2
    exact absurd h1 (by decide)

/-- Timeout notices built from differently-rendered values are different
strings: the value's rendering can be cancelled out of the fixed notice. -/
theorem timeoutNotice_ne_of_toString_ne (a b : Int) (h : toString a ≠ toString b) :
    timeoutNotice a ≠ timeoutNotice b := by
  intro heq
  apply h
  have hd := congrArg String.data heq
  simp only [timeoutNotice, String.data_append] at hd
  rw [List.append_assoc, List.append_assoc] at hd
  have h1 := List.append_cancel_left hd
  have h2 := List.append_cancel_right h1
  exact String.ext h2

/-- The timeout notice for the substituted default differs from the notice
for any nonpositive configured value. -/
theorem timeoutNotice_default_ne (t : Int) (ht : t ≤ 0) :
    timeoutNotice DEFAULT_TIMEOUT ≠ timeoutNotice t :=
  timeoutNotice_ne_of_toString_ne _ _ fun hh => toString_nonpos_ne_default t ht hh.symm

/-- C1: a `Wait` resolved by the completion signal reports `Failed` with a
notice embedding the delivered error when the delivered value is non-null,
and `Success` with an empty message when it is null. -/
theorem wait_finish_spec (e : BaseExecutor) (b : Build) (hb : e.build = some b) :
    (∀ s tr r, e.Wait (WaitEvent.finish (some s)) = some (tr, r) →
      reportsExactly tr BuildState.Failed (buildFailedNotice s) ∧
      s.data <:+: (buildFailedNotice s).data) ∧
    (∀ tr r, e.Wait (WaitEvent.finish none) = some (tr, r) →
      reportsExactly tr BuildState.Success "") := by
  constructor
  · intro s tr r h
    rw [wait_eq e b hb] at h
    simp only [Option.some.injEq, Prod.mk.injEq] at h
    obtain ⟨htr, -⟩ := h
    subst htr
    constructor
    · simp [reportsExactly, selectBranch, WaitAction.isReport,
        List.countP_cons, List.countP_nil]
    · exact ⟨("\nBuild failed with " : String).data, [],
        by simp [buildFailedNotice, String.data_append]⟩
  · intro tr r h
    rw [wait_eq e b hb] at h
    simp only [Option.some.injEq, Prod.mk.injEq] at h
    obtain ⟨htr, -⟩ := h
    subst htr
    simp [reportsExactly, selectBranch, WaitAction.isReport,
      List.countP_cons, List.countP_nil]

/-- Witness for C1: completion delivering the error "exit code 1" and
completion delivering nil, for a prepared controller. -/
theorem wait_finish_spec_witness :
    (reportsExactly [WaitAction.watchTrace, WaitAction.logFinishRendezvous,
      WaitAction.finishBuild BuildState.Failed (buildFailedNotice "exit code 1")]
      BuildState.Failed (buildFailedNotice "exit code 1") ∧
      ("exit code 1" : String).data <:+: (buildFailedNotice "exit code 1").data) ∧
    reportsExactly [WaitAction.watchTrace, WaitAction.logFinishRendezvous,
      WaitAction.finishBuild BuildState.Success ""] BuildState.Success "" :=
  ⟨(wait_finish_spec demoPlainExec demoBuild rfl).1 "exit code 1"
      [WaitAction.watchTrace, WaitAction.logFinishRendezvous,
        WaitAction.finishBuild BuildState.Failed (buildFailedNotice "exit code 1")]
      none rfl,
    (wait_finish_spec demoPlainExec demoBuild rfl).2
      [WaitAction.watchTrace, WaitAction.logFinishRendezvous,
        WaitAction.finishBuild BuildState.Success ""] none rfl⟩

/-- C2: every resolution of `Wait` performs the watcher-shutdown rendezvous
strictly before the final report, and the final report occurs exactly once in
the trace. -/
theorem wait_report_once_after_rendezvous (e : BaseExecutor) (b : Build)
    (hb : e.build = some b) (ev : WaitEvent) :
    ∀ tr r, e.Wait ev = some (tr, r) →
      List.countP WaitAction.isReport tr = 1 ∧
      ∃ pre st msg,
        tr = pre ++ [WaitAction.logFinishRendezvous, WaitAction.finishBuild st msg] ∧
        List.countP WaitAction.isReport pre = 0 := by
  intro tr r h
  rw [wait_eq e b hb] at h
  simp only [Option.some.injEq, Prod.mk.injEq] at h
  obtain ⟨htr, -⟩ := h
  subst htr
  rcases selectBranch_actions e.buildAbortFunc (effectiveTimeout b) ev with ha | ha <;>
    rw [ha]
  · refine ⟨?_, [WaitAction.watchTrace],
      (selectBranch e.buildAbortFunc (effectiveTimeout b) ev).1,
      (selectBranch e.buildAbortFunc (effectiveTimeout b) ev).2.1, by simp, ?_⟩ <;>
      simp [WaitAction.isReport, List.countP_cons, List.countP_nil]
  · refine ⟨?_, [WaitAction.watchTrace, WaitAction.abortCallback],
      (selectBranch e.buildAbortFunc (effectiveTimeout b) ev).1,
      (selectBranch e.buildAbortFunc (effectiveTimeout b) ev).2.1, by simp, ?_⟩ <;>
      simp [WaitAction.isReport, List.countP_cons, List.countP_nil]

/-- Witness for C2: the abort resolution of a prepared controller with an
abort callback. -/
theorem wait_report_once_after_rendezvous_witness :
    List.countP WaitAction.isReport [WaitAction.watchTrace, WaitAction.abortCallback,
      WaitAction.logFinishRendezvous, WaitAction.finishBuild BuildState.Failed ""] = 1 ∧
    ∃ pre st msg,
      [WaitAction.watchTrace, WaitAction.abortCallback, WaitAction.logFinishRendezvous,
        WaitAction.finishBuild BuildState.Failed ""] =
        pre ++ [WaitAction.logFinishRendezvous, WaitAction.finishBuild st msg] ∧
      List.countP WaitAction.isReport pre = 0 :=
  wait_report_once_after_rendezvous demoExec demoBuild rfl WaitEvent.abort
    [WaitAction.watchTrace, WaitAction.abortCallback, WaitAction.logFinishRendezvous,
      WaitAction.finishBuild BuildState.Failed ""] none rfl

/-- C4: a `Wait` resolved by the abort signal reports `Failed` with an empty
message; the abort callback, when supplied, is invoked exactly once and before
the final state is reported. -/
theorem wait_abort_spec (e : BaseExecutor) (b : Build) (hb : e.build = some b) :
    ∀ tr r, e.Wait WaitEvent.abort = some (tr, r) →
      reportsExactly tr BuildState.Failed "" ∧
      List.countP WaitAction.isAbortCallback tr =
        (if e.buildAbortFunc then 1 else 0) ∧
      (e.buildAbortFunc = true →
        ∃ pre suf, tr = pre ++ WaitAction.abortCallback :: suf ∧
          List.countP WaitAction.isReport pre = 0) := by
  intro tr r h
  rw [wait_eq e b hb] at h
  simp only [Option.some.injEq, Prod.mk.injEq] at h
  obtain ⟨htr, -⟩ := h
  subst htr
  cases haf : e.buildAbortFunc
  · simp [reportsExactly, selectBranch, WaitAction.isReport,
      WaitAction.isAbortCallback, List.countP_cons, List.countP_nil]
  · refine ⟨?_, ?_, fun _ => ⟨[WaitAction.watchTrace],
      [WaitAction.logFinishRendezvous, WaitAction.finishBuild BuildState.Failed ""],
      by simp [selectBranch], by simp [WaitAction.isReport, List.countP_cons,
        List.countP_nil]⟩⟩ <;>
      simp [reportsExactly, selectBranch, WaitAction.isReport,
        WaitAction.isAbortCallback, List.countP_cons, List.countP_nil]

/-- Witness for C4: the abort resolution of a prepared controller carrying an
abort callback. -/
theorem wait_abort_spec_witness :
    reportsExactly [WaitAction.watchTrace, WaitAction.abortCallback,
      WaitAction.logFinishRendezvous, WaitAction.finishBuild BuildState.Failed ""]
      BuildState.Failed "" ∧
    List.countP WaitAction.isAbortCallback [WaitAction.watchTrace,
      WaitAction.abortCallback, WaitAction.logFinishRendezvous,
      WaitAction.finishBuild BuildState.Failed ""] =
      (if demoExec.buildAbortFunc then 1 else 0) ∧
    (demoExec.buildAbortFunc = true →
      ∃ pre suf, [WaitAction.watchTrace, WaitAction.abortCallback,
        WaitAction.logFinishRendezvous, WaitAction.finishBuild BuildState.Failed ""] =
        pre ++ WaitAction.abortCallback :: suf ∧
        List.countP WaitAction.isReport pre = 0) :=
  wait_abort_spec demoExec demoBuild rfl
    [WaitAction.watchTrace, WaitAction.abortCallback, WaitAction.logFinishRendezvous,
      WaitAction.finishBuild BuildState.Failed ""] none rfl

/-- C3 fails as stated: with configured timeout -5 the timeout resolution
reports the notice for the substituted default 7200; that message does not
contain the configured value's rendering "-5" and is not the notice for the
configured value. -/
theorem wait_timeout_configured_cex :
    demoNegExec.Wait WaitEvent.timeout =
      some ([WaitAction.watchTrace, WaitAction.abortCallback,
        WaitAction.logFinishRendezvous,
        WaitAction.finishBuild BuildState.Failed (timeoutNotice 7200)], none) ∧
    ¬ (("-5" : String).data <:+: (timeoutNotice 7200).data) ∧
    timeoutNotice 7200 ≠ timeoutNotice (-5) := by
  refine ⟨rfl, by decide, by decide⟩

/-- C3 (amended): a `Wait` resolved by the timeout branch reports `Failed`
with the timeout notice for the effective timeout — equal to the configured
value whenever that value is positive — and the effective value's rendering in
seconds appears in the message; the abort callback, when supplied, is invoked
before `Wait` returns. -/
theorem wait_timeout_spec (e : BaseExecutor) (b : Build) (hb : e.build = some b) :
    ∀ tr r, e.Wait WaitEvent.timeout = some (tr, r) →
      reportsExactly tr BuildState.Failed (timeoutNotice (effectiveTimeout b)) ∧
      (0 < b.Timeout → effectiveTimeout b = b.Timeout) ∧
      (toString (effectiveTimeout b)).data <:+: (timeoutNotice (effectiveTimeout b)).data ∧
      (e.buildAbortFunc = true → WaitAction.abortCallback ∈ tr) := by
  intro tr r h
  rw [wait_eq e b hb] at h
  simp only [Option.some.injEq, Prod.mk.injEq] at h
  obtain ⟨htr, -⟩ := h
  subst htr
  refine ⟨?_, fun hpos => ?_, ?_, fun haf => ?_⟩
  · cases haf : e.buildAbortFunc <;>
      simp [reportsExactly, selectBranch, WaitAction.isReport,
        List.countP_cons, List.countP_nil]
  · unfold effectiveTimeout
    rw [if_neg (by omega)]
  · exact ⟨("\nCI Timeout. Execution took longer then " : String).data,
      (" seconds" : String).data, by simp [timeoutNotice, String.data_append]⟩
  · simp [selectBranch, haf]

/-- Witness for C3 (amended): the timeout resolution of a prepared controller
whose build has configured timeout 10. -/
theorem wait_timeout_spec_witness :
    reportsExactly [WaitAction.watchTrace, WaitAction.abortCallback,
      WaitAction.logFinishRendezvous,
      WaitAction.finishBuild BuildState.Failed (timeoutNotice 10)]
      BuildState.Failed (timeoutNotice 10) ∧
    (0 < demoBuild.Timeout → effectiveTimeout demoBuild = demoBuild.Timeout) ∧
    (toString (10 : Int)).data <:+: (timeoutNotice 10).data ∧
    (demoExec.buildAbortFunc = true →
      WaitAction.abortCallback ∈ [WaitAction.watchTrace, WaitAction.abortCallback,
        WaitAction.logFinishRendezvous,
        WaitAction.finishBuild BuildState.Failed (timeoutNotice 10)]) :=
  wait_timeout_spec demoExec demoBuild rfl
    [WaitAction.watchTrace, WaitAction.abortCallback, WaitAction.logFinishRendezvous,
      WaitAction.finishBuild BuildState.Failed (timeoutNotice 10)] none rfl

/-- C9: with a zero-or-negative configured timeout, the timeout resolution's
message is the notice embedding the substituted `DEFAULT_TIMEOUT` — whose
rendering in seconds appears in the message — and not the notice for the
originally configured value. -/
theorem wait_timeout_default_spec (e : BaseExecutor) (b : Build)
    (hb : e.build = some b) (ht : b.Timeout ≤ 0) :
    ∀ tr r, e.Wait WaitEvent.timeout = some (tr, r) →
      reportsExactly tr BuildState.Failed (timeoutNotice DEFAULT_TIMEOUT) ∧
      (toString DEFAULT_TIMEOUT).data <:+: (timeoutNotice DEFAULT_TIMEOUT).data ∧
      timeoutNotice DEFAULT_TIMEOUT ≠ timeoutNotice b.Timeout := by
  intro tr r h
  have he : effectiveTimeout b = DEFAULT_TIMEOUT := by
    unfold effectiveTimeout
    rw [if_pos ht]
  rw [wait_eq e b hb] at h
  simp only [Option.some.injEq, Prod.mk.injEq] at h
  obtain ⟨htr, -⟩ := h
  subst htr
  rw [he]
  refine ⟨?_, ?_, timeoutNotice_default_ne b.Timeout ht⟩
  · cases haf : e.buildAbortFunc <;>
      simp [reportsExactly, selectBranch, WaitAction.isReport,
        List.countP_cons, List.countP_nil]
  · exact ⟨("\nCI Timeout. Execution took longer then " : String).data,
      (" seconds" : String).data, by simp [timeoutNotice, String.data_append]⟩

/-- Witness for C9: the timeout resolution of a prepared controller whose
build has configured timeout -5. -/
theorem wait_timeout_default_spec_witness :
    reportsExactly [WaitAction.watchTrace, WaitAction.abortCallback,
      WaitAction.logFinishRendezvous,
      WaitAction.finishBuild BuildState.Failed (timeoutNotice DEFAULT_TIMEOUT)]
      BuildState.Failed (timeoutNotice DEFAULT_TIMEOUT) ∧
    (toString DEFAULT_TIMEOUT).data <:+: (timeoutNotice DEFAULT_TIMEOUT).data ∧
    timeoutNotice DEFAULT_TIMEOUT ≠ timeoutNotice demoNegBuild.Timeout :=
  wait_timeout_default_spec demoNegExec demoNegBuild rfl (by decide)
    [WaitAction.watchTrace, WaitAction.abortCallback, WaitAction.logFinishRendezvous,
      WaitAction.finishBuild BuildState.Failed (timeoutNotice DEFAULT_TIMEOUT)] none rfl
